import Mathlib

/-!
Verification development for the hms-nut UPS bridge/collector service.

Shallow embedding of the MQTT client core (`src/mqtt/MqttClient.cpp`),
the UPS data record (`include/nut/UpsData.h`, `UpsData.cpp`) and the
collector (`src/services/CollectorService.cpp`).  Machine doubles are
modelled as exact rationals (the claims under study only involve exact
decimal payloads), `std::optional` as `Option`, `std::map` as an
association list kept in key order, and wall-clock time points as
integers (seconds).
-/

namespace HmsNut

/-! ### String splitting (the `std::getline(ss, part, '/')` loop)

Both `MqttClient::topicMatches` and `CollectorService::parseTopic` split a
string on `'/'` with repeated `std::getline`.  `getline` drops a trailing
empty segment: `"a/"` yields `["a"]`, `""` yields `[]`, `"/a"` yields
`["", "a"]`. -/

/-- One pass of the getline loop, keeping every segment (including a
trailing empty one); the trailing-empty fixup is applied in `cppSplit`. -/
def splitAllAux : List Char → List Char → List String
  | [], acc => [String.mk acc.reverse]
  | '/' :: rest, acc => String.mk acc.reverse :: splitAllAux rest []
  | c :: rest, acc => splitAllAux rest (c :: acc)

/-- Split on `'/'` with `std::getline` semantics: the empty string gives no
segments, and a trailing `'/'` does not produce a trailing empty segment. -/
def cppSplit (s : String) : List String :=
  match s.data with
  | [] => []
  | cs =>
    let parts := splitAllAux cs []
    if cs.getLast? = some '/' then parts.dropLast else parts

example : cppSplit "" = [] := by decide
example : cppSplit "a/b/c" = ["a", "b", "c"] := by decide
example : cppSplit "a/" = ["a"] := by decide
example : cppSplit "/a" = ["", "a"] := by decide
example : cppSplit "a//b" = ["a", "", "b"] := by decide
example : cppSplit "/" = [""] := by decide

/-! ### Topic matching (`MqttClient::topicMatches`) -/

/-- The per-level loop of `MqttClient::topicMatches`: each pattern level is
either the single-level wildcard `"+"` or must equal the topic level
verbatim.  The loop runs over the pattern levels only; callers guarantee
the topic has at least as many levels (the `[]` topic case below is
unreachable under the length guards in `topicMatches`). -/
def matchLevels : List String → List String → Bool
  | [], _ => true
  | p :: ps, t :: ts => (p = "+" || p = t) && matchLevels ps ts
  | _ :: _, [] => false

/-- `MqttClient::topicMatches(topic, pattern)`: split both on `'/'`; a
pattern ending in `"#"` matches any topic with at least the prefix's level
count whose prefix levels match; otherwise level counts must agree exactly
and all levels must match. -/
def topicMatches (topic pattern : String) : Bool :=
  if cppSplit pattern ≠ [] ∧ (cppSplit pattern).getLast? = some "#" then
    if (cppSplit topic).length < (cppSplit pattern).length - 1 then false
    else matchLevels (cppSplit pattern).dropLast (cppSplit topic)
  else
    if (cppSplit topic).length ≠ (cppSplit pattern).length then false
    else matchLevels (cppSplit pattern) (cppSplit topic)

example : topicMatches "a/b/c" "a/+/c" = true := by decide
example : topicMatches "a/b/c/d" "a/#" = true := by decide
example : topicMatches "a" "a/#" = true := by decide
example : topicMatches "b" "a/#" = false := by decide
example : topicMatches "a" "a/b/#" = false := by decide
example : topicMatches "a/b" "a" = false := by decide

/-! ### Numeric payload parsing (`parseDouble` / `parseInt` in UpsData.cpp)

`parseDouble` wraps `std::stod` (and `parseInt` wraps `std::stoi`),
returning `nullopt` when the conversion throws.  We model the plain
decimal grammar of `stod`/`stoi`: optional leading whitespace, optional
sign, digits, and (for doubles) an optional fractional part.  The exotic
`stod` forms (exponents, hex, inf/nan) never occur in this system's
payloads and are omitted. -/

/-- Value of a digit string, most significant first. -/
def digitsVal (ds : List Char) : Nat :=
  ds.foldl (fun acc c => 10 * acc + (c.toNat - 48)) 0

/-- Characters skipped by `strtod`-style leading-whitespace handling. -/
def isSpaceChar (c : Char) : Bool :=
  c = ' ' || c = '\t' || c = '\n' || c = '\r'

/-- `parseDouble`: `std::stod` on a plain decimal, `none` if no digits can
be consumed (matching the `catch (...) { return std::nullopt; }` and the
`pos > 0` guard in the source).  The value `i.f` is the exact rational
`(i * 10^|f| + f) / 10^|f|`, built with `mkRat` over integer arithmetic. -/
def parseDouble (s : String) : Option ℚ :=
  let cs := s.data.dropWhile isSpaceChar
  let (neg, cs) : Bool × List Char :=
    match cs with
    | '-' :: rest => (true, rest)
    | '+' :: rest => (false, rest)
    | _ => (false, cs)
  let intPart := cs.takeWhile Char.isDigit
  let rest := cs.dropWhile Char.isDigit
  let signed : Int → Int := fun m => if neg then -m else m
  match rest with
  | '.' :: rest2 =>
    let fracPart := rest2.takeWhile Char.isDigit
    if intPart.isEmpty && fracPart.isEmpty then none
    else some (mkRat
      (signed (digitsVal intPart * 10 ^ fracPart.length + digitsVal fracPart))
      (10 ^ fracPart.length))
  | _ =>
    if intPart.isEmpty then none
    else some (mkRat (signed (digitsVal intPart)) 1)

/-- `parseInt`: `std::stoi` on a plain decimal (stops at the first
non-digit, so `"95.5"` parses as `95`), `none` if no digits. -/
def parseInt (s : String) : Option Int :=
  let cs := s.data.dropWhile isSpaceChar
  let (neg, cs) : Bool × List Char :=
    match cs with
    | '-' :: rest => (true, rest)
    | '+' :: rest => (false, rest)
    | _ => (false, cs)
  let intPart := cs.takeWhile Char.isDigit
  if intPart.isEmpty then none
  else if neg then some (-(digitsVal intPart : Int))
  else some (digitsVal intPart : Int)

example : parseDouble "100" = some 100 := by decide
example : parseDouble "95.5" = some (mkRat 191 2) := by decide
example : parseDouble "not_a_number" = none := by decide
example : parseDouble "OL" = none := by decide
example : parseDouble "-12.25" = some (mkRat (-49) 4) := by decide
example : parseInt "2400" = some 2400 := by decide
example : parseInt "95.5" = some 95 := by decide
example : parseInt "abc" = none := by decide

/-! ### The device record (`struct UpsData`) -/

/-- `hms_nut::UpsData` (include/nut/UpsData.h): one device's canonical
state; every measurement field is independently present-or-absent.
Doubles are modelled as `ℚ`, time points as `Int` seconds. -/
structure UpsData where
  device_id : String := ""
  timestamp : Int := 0
  battery_charge : Option ℚ := none
  battery_voltage : Option ℚ := none
  battery_runtime : Option Int := none
  battery_nominal_voltage : Option ℚ := none
  battery_low_threshold : Option ℚ := none
  battery_warning_threshold : Option ℚ := none
  battery_type : Option String := none
  battery_mfr_date : Option String := none
  input_voltage : Option ℚ := none
  input_nominal_voltage : Option Int := none
  high_voltage_transfer : Option ℚ := none
  low_voltage_transfer : Option ℚ := none
  input_sensitivity : Option String := none
  last_transfer_reason : Option String := none
  load_percentage : Option ℚ := none
  load_watts : Option ℚ := none
  ups_status : Option String := none
  power_failure : Option Bool := none
  ups_nominal_power : Option ℚ := none
  beeper_status : Option String := none
  self_test_result : Option String := none
  firmware_version : Option String := none
  delay_shutdown : Option Int := none
  timer_reboot : Option Int := none
  timer_shutdown : Option Int := none
  driver_name : Option String := none
  driver_version : Option String := none
  driver_state : Option String := none
  temperature : Option ℚ := none
  output_voltage : Option ℚ := none
  output_nominal_voltage : Option Int := none
deriving Repr, DecidableEq

/-- `value.find("OB") != std::string::npos`: does `"OB"` occur as a
substring? -/
def startsWithChars : List Char → List Char → Bool
  | [], _ => true
  | _ :: _, [] => false
  | a :: as, b :: bs => a = b && startsWithChars as bs

def containsChars : List Char → List Char → Bool
  | [], needle => needle.isEmpty
  | c :: rest, needle => startsWithChars needle (c :: rest) || containsChars rest needle

def containsOB (s : String) : Bool :=
  containsChars s.data ['O', 'B']

example : containsOB "OL" = false := by decide
example : containsOB "OB DISCHRG" = true := by decide

/-- `UpsData::isValid()`: at minimum battery charge and UPS status must be
present. -/
def UpsData.isValid (d : UpsData) : Bool :=
  d.battery_charge.isSome && d.ups_status.isSome

/-- The sensor-name dispatch chain of `UpsData::updateFieldFromMqtt`:
numeric fields are assigned the parse result of the payload, string fields
take the payload verbatim, and an unrecognized sensor name falls through
the chain without touching any field. -/
def UpsData.updateFieldDispatch (d : UpsData) (sensor_name value : String) :
    UpsData :=
  if sensor_name = "battery_charge" then
    { d with battery_charge := parseDouble value }
  else if sensor_name = "battery_voltage" then
    { d with battery_voltage := parseDouble value }
  else if sensor_name = "battery_runtime" then
    { d with battery_runtime := parseInt value }
  else if sensor_name = "battery_nominal_voltage" ∨ sensor_name = "battery_voltage_nominal" then
    { d with battery_nominal_voltage := parseDouble value }
  else if sensor_name = "battery_low_charge_threshold" ∨ sensor_name = "battery_charge_low" then
    { d with battery_low_threshold := parseDouble value }
  else if sensor_name = "battery_warning_charge_threshold" ∨ sensor_name = "battery_charge_warning" then
    { d with battery_warning_threshold := parseDouble value }
  else if sensor_name = "input_voltage" then
    { d with input_voltage := parseDouble value }
  else if sensor_name = "input_nominal_voltage" ∨ sensor_name = "input_voltage_nominal" then
    { d with input_nominal_voltage := parseInt value }
  else if sensor_name = "high_voltage_transfer" ∨ sensor_name = "input_transfer_high" then
    { d with high_voltage_transfer := parseDouble value }
  else if sensor_name = "low_voltage_transfer" ∨ sensor_name = "input_transfer_low" then
    { d with low_voltage_transfer := parseDouble value }
  else if sensor_name = "load_percentage" ∨ sensor_name = "load_percent" then
    match parseDouble value with
    | some p => { d with load_percentage := some p, load_watts := some (p / 100 * 600) }
    | none => { d with load_percentage := none }
  else if sensor_name = "load_watts" then
    { d with load_watts := parseDouble value }
  else if sensor_name = "ups_status" ∨ sensor_name = "status" then
    { d with ups_status := some value, power_failure := some (containsOB value) }
  else if sensor_name = "power_failure" then
    { d with power_failure := some (value = "1" || value = "true" || value = "on") }
  else if sensor_name = "ups_nominal_power" then
    { d with ups_nominal_power := parseDouble value }
  else if sensor_name = "temperature" then
    { d with temperature := parseDouble value }
  else if sensor_name = "output_voltage" then
    { d with output_voltage := parseDouble value }
  else if sensor_name = "output_nominal_voltage" then
    { d with output_nominal_voltage := parseInt value }
  else if sensor_name = "beeper_status" then
    { d with beeper_status := some value }
  else if sensor_name = "self_test_result" then
    { d with self_test_result := some value }
  else if sensor_name = "firmware_version" then
    { d with firmware_version := some value }
  else if sensor_name = "driver_name" then
    { d with driver_name := some value }
  else if sensor_name = "driver_version" then
    { d with driver_version := some value }
  else if sensor_name = "driver_state" then
    { d with driver_state := some value }
  else if sensor_name = "input_sensitivity" then
    { d with input_sensitivity := some value }
  else if sensor_name = "last_transfer_reason" ∨ sensor_name = "input_transfer_reason" then
    { d with last_transfer_reason := some value }
  else d

/-- `UpsData::updateFieldFromMqtt(sensor_name, value)`: sets the record
timestamp to the current time (`now`) first, then runs the sensor-name
dispatch chain (which never touches the timestamp). -/
def UpsData.updateFieldFromMqtt (d0 : UpsData) (sensor_name value : String)
    (now : Int) : UpsData :=
  UpsData.updateFieldDispatch { d0 with timestamp := now } sensor_name value

/-- Every sensor name recognized by the `updateFieldFromMqtt` chain. -/
def recognizedSensorNames : List String :=
  ["battery_charge", "battery_voltage", "battery_runtime",
   "battery_nominal_voltage", "battery_voltage_nominal",
   "battery_low_charge_threshold", "battery_charge_low",
   "battery_warning_charge_threshold", "battery_charge_warning",
   "input_voltage", "input_nominal_voltage", "input_voltage_nominal",
   "high_voltage_transfer", "input_transfer_high",
   "low_voltage_transfer", "input_transfer_low",
   "load_percentage", "load_percent", "load_watts",
   "ups_status", "status", "power_failure",
   "ups_nominal_power", "temperature",
   "output_voltage", "output_nominal_voltage",
   "beeper_status", "self_test_result", "firmware_version",
   "driver_name", "driver_version", "driver_state",
   "input_sensitivity", "last_transfer_reason", "input_transfer_reason"]

example :
    (({} : UpsData).updateFieldFromMqtt "battery_charge" "95.5" 7).battery_charge
      = some (mkRat 191 2) := by decide
example :
    (({} : UpsData).updateFieldFromMqtt "ups_status" "OL" 7).power_failure
      = some false := by decide

/-! ### Collector (`CollectorService`, src/services/CollectorService.cpp)

`std::map` is modelled as an association list kept in key order; `insertA`
is `map[k] = v` (replace if present, otherwise insert before the first
larger key, preserving sortedness). -/

/-- Lexicographic order on character lists by code point: the
`std::string` `operator<` that orders `std::map` keys. -/
def charListLt : List Char → List Char → Bool
  | [], [] => false
  | [], _ :: _ => true
  | _ :: _, [] => false
  | a :: as, b :: bs =>
    if a.toNat < b.toNat then true
    else if b.toNat < a.toNat then false
    else charListLt as bs

/-- `std::string` comparison used for `std::map` key order. -/
def strLt (a b : String) : Bool :=
  charListLt a.data b.data

/-- `std::map` assignment `m[k] = v` on a key-sorted association list. -/
def insertA {α : Type} (m : List (String × α)) (k : String) (v : α) :
    List (String × α) :=
  match m with
  | [] => [(k, v)]
  | (k', v') :: rest =>
    if k = k' then (k, v) :: rest
    else if strLt k k' then (k, v) :: (k', v') :: rest
    else (k', v') :: insertA rest k v

/-- `CollectorService::parseTopic`: split the topic on `'/'`; with at
least 5 parts return `(parts[2], parts[3])` (device id, sensor name),
otherwise the pair of empty strings. -/
def parseTopic (topic : String) : String × String :=
  let parts := cppSplit topic
  if parts.length ≥ 5 then (parts.getD 2 "", parts.getD 3 "")
  else ("", "")

example : parseTopic "homeassistant/sensor/apc_ups/battery_charge/state"
    = ("apc_ups", "battery_charge") := by decide
example : parseTopic "homeassistant/sensor/apc_ups/state" = ("", "") := by decide

/-- The collector's in-memory buffer: `device_data_` and
`last_save_times_` (both `std::map`s keyed by the database device
identifier). -/
structure CollectorState where
  device_data : List (String × UpsData)
  last_save_times : List (String × Int)
deriving Repr, DecidableEq

/-- `CollectorService::onMqttMessage(topic, payload)`: parse the topic,
silently ignore it when device id or sensor name is empty, otherwise map
the MQTT device id to a database identifier (`DeviceMapper::getDbIdentifier`
is treated as an external mapping `mapper`), lazily create the device
record (also recording an initial last-save time), and merge the field
with `updateFieldFromMqtt`. -/
def onMqttMessage (mapper : String → String) (st : CollectorState)
    (topic payload : String) (now : Int) : CollectorState :=
  let (mqtt_device_id, sensor_name) := parseTopic topic
  if mqtt_device_id = "" ∨ sensor_name = "" then st
  else
    let device_identifier := mapper mqtt_device_id
    let st1 :=
      if (st.device_data.lookup device_identifier).isNone then
        { device_data := insertA st.device_data device_identifier
            { device_id := mqtt_device_id, timestamp := now },
          last_save_times := insertA st.last_save_times device_identifier now }
      else st
    match st1.device_data.lookup device_identifier with
    | some d =>
      let updated := d.updateFieldFromMqtt sensor_name payload now
      { st1 with device_data := insertA st1.device_data device_identifier updated }
    | none => st1

/-- `CollectorService::saveDeviceData(device_identifier)` (called with
`data_mutex_` held): look the record up, skip the save when
`UpsData::isValid()` fails, otherwise hand the record to
`DatabaseService::insertUpsMetrics` (the storage sink, whose success is
the external oracle `dbSuccess`) and update the last-save time only on
success.  Returns the record passed to the sink (if any), the success
flag, and the updated last-save map. -/
def saveDeviceData (dbSuccess : Bool) (device_data : List (String × UpsData))
    (last_save_times : List (String × Int)) (device_identifier : String)
    (now : Int) : Option UpsData × Bool × List (String × Int) :=
  match device_data.lookup device_identifier with
  | none => (none, false, last_save_times)
  | some data =>
    if ¬ data.isValid then (none, false, last_save_times)
    else if dbSuccess then
      (some data, true, insertA last_save_times device_identifier now)
    else (some data, false, last_save_times)

/-- One tick of `CollectorService::scheduledSaveLoop`: walk the device
map in key order; a device with no recorded last-save time is flushed
immediately ("first save"), and a device whose elapsed seconds since its
last save meet or exceed the configured interval is flushed.  Returns the
device identifiers for which `saveDeviceData` is invoked this tick. -/
def scheduledSaveTick (device_data : List (String × UpsData))
    (last_save_times : List (String × Int)) (now : Int)
    (save_interval_seconds : Int) : List String :=
  device_data.filterMap (fun p =>
    match last_save_times.lookup p.1 with
    | none => some p.1
    | some last_save =>
      if now - last_save ≥ save_interval_seconds then some p.1 else none)

/-! ### Pub/sub client call traces (`MqttClient`, src/mqtt/MqttClient.cpp)

The effects of `subscribe` and of message dispatch are modelled as event
traces, so that the ordering of handler registration, network calls and
lock operations is a provable property. -/

/-- Observable steps of `MqttClient::subscribe`. -/
inductive SubStep where
  /-- insertion of the handler into `message_callbacks_` -/
  | register (pattern : String)
  /-- the async `client_ptr->subscribe(topic, qos)` network request -/
  | netSubscribe (pattern : String)
deriving Repr, DecidableEq

/-- `MqttClient::subscribe(topic, callback, qos)`: fail fast when not
connected; fail when `connection_mutex_` cannot be acquired
(`try_to_lock`); otherwise store the callback in `message_callbacks_`
first and only then initiate the asynchronous network subscribe (when the
underlying client object exists).  Returns the success flag and the trace
of steps taken. -/
def MqttClient.subscribeSteps (connected mutexFree clientPresent : Bool)
    (topic : String) : Bool × List SubStep :=
  if ¬ connected then (false, [])
  else if ¬ mutexFree then (false, [])
  else
    (true, SubStep.register topic ::
      (if clientPresent then [SubStep.netSubscribe topic] else []))

/-- Observable steps of `MqttClient::onMessageArrived`. -/
inductive DispatchStep where
  /-- `std::lock_guard` acquiring `callbacks_mutex_` -/
  | lockCallbacks
  /-- invocation of the handler registered under `pattern` -/
  | invokeHandler (pattern : String)
  /-- release of `callbacks_mutex_` at scope exit -/
  | unlockCallbacks
deriving Repr, DecidableEq

/-- `MqttClient::onMessageArrived(msg)`: under `callbacks_mutex_`, walk
every entry of `message_callbacks_` (`patterns`, in map order) and invoke
the callback of each entry whose pattern matches the topic; the lock is
released only when the loop is done. -/
def MqttClient.onMessageArrivedSteps (patterns : List String)
    (topic : String) : List DispatchStep :=
  DispatchStep.lockCallbacks ::
    ((patterns.filter (fun p => topicMatches topic p)).map
        DispatchStep.invokeHandler
      ++ [DispatchStep.unlockCallbacks])

/-- Number of unmatched `callbacks_mutex_` acquisitions before position
`i` of a dispatch trace: how deep the lock is held when step `i` runs. -/
def locksHeldAt (trace : List DispatchStep) (i : Nat) : Int :=
  ((trace.take i).count DispatchStep.lockCallbacks : Int) -
    ((trace.take i).count DispatchStep.unlockCallbacks : Int)

/-- `MqttClient::publish(topic, payload, qos, retain)`: fail fast when not
connected, otherwise hand exactly one message to the transport
asynchronously.  Returns the success flag and the message handed to the
transport, if any. -/
def MqttClient.publishModel (connected : Bool) (topic payload : String)
    (qos : Nat) (retain : Bool) :
    Bool × Option (String × String × Nat × Bool) :=
  if ¬ connected then (false, none)
  else (true, some (topic, payload, qos, retain))

/-! ### Discovery publisher (`DiscoveryPublisher`, DiscoveryPublisher.cpp) -/

/-- Sensor ids whose config `DiscoveryPublisher::publishAll` publishes
before the binary sensor, in source order. -/
def sensorIdsBeforeBinary : List String :=
  ["battery_charge", "battery_voltage", "battery_runtime",
   "battery_nominal_voltage", "battery_low_charge_threshold",
   "battery_warning_charge_threshold",
   "input_voltage", "input_nominal_voltage", "high_voltage_transfer",
   "low_voltage_transfer", "input_sensitivity", "last_transfer_reason",
   "load_percentage", "load_watts", "ups_status"]

/-- Sensor ids published after the binary sensor, in source order. -/
def sensorIdsAfterBinary : List String :=
  ["ups_nominal_power", "beeper_status", "self_test_result",
   "firmware_version", "driver_name", "driver_version", "driver_state",
   "temperature", "output_voltage", "output_nominal_voltage"]

/-- The JSON discovery payload built by `publishSensorConfig` /
`publishBinarySensorConfig`; its content is irrelevant to the
connectivity semantics under study, so it is kept abstract as a function
of the sensor id. -/
def configPayload (sensor_id : String) : String :=
  sensor_id ++ "/config-payload"

/-- `DiscoveryPublisher::publishSensorConfig` reduced to its publish
call: retained, QoS 1, on the per-sensor config topic. -/
def publishSensorConfig (connected : Bool) (device_id sensor_id : String) :
    Bool × Option (String × String × Nat × Bool) :=
  MqttClient.publishModel connected
    ("homeassistant/sensor/" ++ device_id ++ "/" ++ sensor_id ++ "/config")
    (configPayload sensor_id) 1 true

/-- `DiscoveryPublisher::publishBinarySensorConfig` reduced to its
publish call. -/
def publishBinarySensorConfig (connected : Bool)
    (device_id sensor_id : String) :
    Bool × Option (String × String × Nat × Bool) :=
  MqttClient.publishModel connected
    ("homeassistant/binary_sensor/" ++ device_id ++ "/" ++ sensor_id ++ "/config")
    (configPayload sensor_id) 1 true

/-- `DiscoveryPublisher::publishAll()`: publish every sensor config (and
the one binary-sensor config) in source order, and-ing the results into
`all_success` (`&=` does not short-circuit: every publish is attempted).
Returns `all_success` and the messages handed to the transport. -/
def DiscoveryPublisher.publishAll (connected : Bool) (device_id : String) :
    Bool × List (String × String × Nat × Bool) :=
  let calls : List (Bool × Option (String × String × Nat × Bool)) :=
    sensorIdsBeforeBinary.map (fun sid => publishSensorConfig connected device_id sid)
      ++ [publishBinarySensorConfig connected device_id "power_failure"]
      ++ sensorIdsAfterBinary.map (fun sid => publishSensorConfig connected device_id sid)
  (calls.foldl (fun acc c => acc && c.1) true,
   calls.filterMap (fun c => c.2))

example : (DiscoveryPublisher.publishAll false "apc_ups").1 = false := by decide
example : (DiscoveryPublisher.publishAll true "apc_ups").2.length = 26 := by decide

/-! ## Theorems -/

/-- C1: a device record is persisted to the storage sink only if the
minimal-completeness invariant holds: every flush path goes through
`CollectorService::saveDeviceData`, which hands a record to
`DatabaseService::insertUpsMetrics` only when `UpsData::isValid()` holds
(both `battery_charge` and `ups_status` present); a record missing
`ups_status` is never passed to the sink, whatever its other fields. -/
theorem claim_C1_persist_only_valid (dbSuccess : Bool)
    (device_data : List (String × UpsData))
    (last_save_times : List (String × Int)) (id : String) (now : Int) :
    (∀ r : UpsData,
      (saveDeviceData dbSuccess device_data last_save_times id now).1 = some r →
      r.isValid = true ∧ r.battery_charge.isSome ∧ r.ups_status.isSome)
    ∧ (∀ r : UpsData, device_data.lookup id = some r → r.ups_status = none →
      (saveDeviceData dbSuccess device_data last_save_times id now).1 = none) := by
  constructor
  · intro r h
    cases hl : device_data.lookup id with
    | none => simp [saveDeviceData, hl] at h
    | some data =>
      by_cases hv : data.isValid = true
      · have hdr : data = r := by
          cases dbSuccess <;> simp [saveDeviceData, hl, hv] at h <;> exact h
        subst hdr
        have hfields := hv
        simp only [UpsData.isValid, Bool.and_eq_true] at hfields
        exact ⟨hv, hfields.1, hfields.2⟩
      · simp [saveDeviceData, hl, hv] at h
  · intro r hl hstat
    have hval : r.isValid = false := by simp [UpsData.isValid, hstat]
    simp [saveDeviceData, hl, hval]

/-- C1 witness: a record with `battery_charge` set but `ups_status`
absent is not handed to the sink. -/
theorem claim_C1_persist_only_valid_witness :
    (saveDeviceData true [("x", { battery_charge := some 100 })] [] "x" 5).1
      = none :=
  (claim_C1_persist_only_valid true [("x", { battery_charge := some 100 })]
    [] "x" 5).2 { battery_charge := some 100 } (by decide) rfl

/-- Collector state after device `d2`'s first (and only) field update
arrived on an empty collector at time -10: per `onMqttMessage`, the
record is created and a last-save time equal to the creation time is
recorded, so "created 10 seconds before the tick" coincides with "last
saved 10 seconds before the tick". -/
def collectorStateD2 : CollectorState :=
  onMqttMessage (fun s => s) ⟨[], []⟩
    "homeassistant/sensor/d2/battery_charge/state" "40" (-10)

/-- The claim's two-device scenario state: on top of `d2`, device `d1`'s
first field update arrives at time 0 (the tick time), creating `d1`'s
record — and, per the code, also recording a last-save time for `d1`. -/
def collectorStateD1D2 : CollectorState :=
  onMqttMessage (fun s => s) collectorStateD2
    "homeassistant/sensor/d1/battery_charge/state" "50" 0

/-- C2 (code bug): the first-write-eagerly policy does not hold.
`CollectorService::onMqttMessage` records a last-save time at the moment
it creates a device record, so no buffered device ever lacks one and the
eager "first save" branch of `scheduledSaveLoop` is unreachable: a
just-created `d1` has `last_save_times` entry 0, the tick right after
creation flushes nothing, the claim's d1/d2 scenario tick flushes
nothing at all (not "exactly d1"), and `d1` is first flushed only once
the full 3600-second interval has elapsed. -/
theorem claim_C2_first_save_not_eager :
    (onMqttMessage (fun s => s) ⟨[], []⟩
        "homeassistant/sensor/d1/battery_charge/state" "50" 0).last_save_times
      = [("d1", 0)]
    ∧ scheduledSaveTick collectorStateD1D2.device_data
        collectorStateD1D2.last_save_times 0 3600 = []
    ∧ scheduledSaveTick collectorStateD1D2.device_data
        collectorStateD1D2.last_save_times 10 3600 = []
    ∧ scheduledSaveTick collectorStateD1D2.device_data
        collectorStateD1D2.last_save_times 3600 3600 = ["d1", "d2"] := by
  decide

/-- C5 counterexample: the claim says an unparsable payload leaves the
field's previous value untouched, but `updateFieldFromMqtt` assigns
`parseDouble(value)` unconditionally, so the previous `battery_charge`
of 50 is cleared to absent by the unparsable payload
`"not_a_number"`. -/
theorem claim_C5_counterexample :
    parseDouble "not_a_number" = none
    ∧ (({ battery_charge := some 50 } : UpsData).updateFieldFromMqtt
        "battery_charge" "not_a_number" 3).battery_charge ≠ some 50
    ∧ (({ battery_charge := some 50 } : UpsData).updateFieldFromMqtt
        "battery_charge" "not_a_number" 3).battery_charge = none := by
  decide

/-- C5 (amended): for numeric fields the merge step assigns the parse
result of the payload unconditionally; in particular an unparsable
payload clears the field to absent rather than leaving the previous
value. -/
theorem claim_C5_amended (d : UpsData) (value : String) (now : Int) :
    ((d.updateFieldFromMqtt "battery_charge" value now).battery_charge
      = parseDouble value)
    ∧ (parseDouble value = none →
      (d.updateFieldFromMqtt "battery_charge" value now).battery_charge
        = none) := by
  refine ⟨?_, ?_⟩
  · simp [UpsData.updateFieldFromMqtt, UpsData.updateFieldDispatch]
  · intro h
    simp [UpsData.updateFieldFromMqtt, UpsData.updateFieldDispatch, h]

/-- C5 witness: `"OL"` does not parse as a number, and the field ends up
absent. -/
theorem claim_C5_amended_witness :
    (({} : UpsData).updateFieldFromMqtt "battery_charge" "OL" 0).battery_charge
      = none :=
  (claim_C5_amended {} "OL" 0).2 (by decide)

/-- The record of device `"X"` after merging exactly the two updates
`battery_charge = 100` (at time 1) and `ups_status = "OL"` (at time 2)
into a fresh record. -/
def upsRecordX : UpsData :=
  (({ device_id := "X" } : UpsData).updateFieldFromMqtt
    "battery_charge" "100" 1).updateFieldFromMqtt "ups_status" "OL" 2

/-- C6 counterexample: after merging exactly `battery_charge = 100` and
`ups_status = "OL"`, the record's `power_failure` field is also present
(set to `false` as a side effect of the status update), so it is not the
case that every field other than the two received ones is absent. -/
theorem claim_C6_counterexample :
    upsRecordX.power_failure = some false := by
  decide

/-- C6 (amended): for a device whose only received updates are battery
charge 100 and UPS status `"OL"`, the record is valid and a flush
produces one storage call in which exactly `battery_charge`,
`ups_status` and the derived `power_failure = false` are set, and every
other optional field is absent. -/
theorem claim_C6_amended :
    upsRecordX.isValid = true
    ∧ (saveDeviceData true [("X", upsRecordX)] [] "X" 3).1 = some upsRecordX
    ∧ upsRecordX.battery_charge = some 100
    ∧ upsRecordX.ups_status = some "OL"
    ∧ upsRecordX.power_failure = some false
    ∧ upsRecordX.battery_voltage = none ∧ upsRecordX.battery_runtime = none
    ∧ upsRecordX.battery_nominal_voltage = none
    ∧ upsRecordX.battery_low_threshold = none
    ∧ upsRecordX.battery_warning_threshold = none
    ∧ upsRecordX.battery_type = none
    ∧ upsRecordX.battery_mfr_date = none ∧ upsRecordX.input_voltage = none
    ∧ upsRecordX.input_nominal_voltage = none
    ∧ upsRecordX.high_voltage_transfer = none
    ∧ upsRecordX.low_voltage_transfer = none
    ∧ upsRecordX.input_sensitivity = none
    ∧ upsRecordX.last_transfer_reason = none
    ∧ upsRecordX.load_percentage = none
    ∧ upsRecordX.load_watts = none ∧ upsRecordX.ups_nominal_power = none
    ∧ upsRecordX.beeper_status = none ∧ upsRecordX.self_test_result = none
    ∧ upsRecordX.firmware_version = none ∧ upsRecordX.delay_shutdown = none
    ∧ upsRecordX.timer_reboot = none ∧ upsRecordX.timer_shutdown = none
    ∧ upsRecordX.driver_name = none ∧ upsRecordX.driver_version = none
    ∧ upsRecordX.driver_state = none ∧ upsRecordX.temperature = none
    ∧ upsRecordX.output_voltage = none
    ∧ upsRecordX.output_nominal_voltage = none := by
  decide

/-- C8 counterexample: a six-level topic is not ignored:
`parseTopic` accepts any topic with at least five levels
(`parts.size() >= 5`), so the malformed topic below is parsed and does
change the device-record map. -/
theorem claim_C8_counterexample :
    parseTopic "homeassistant/sensor/apc_ups/battery_charge/state/extra"
      = ("apc_ups", "battery_charge")
    ∧ onMqttMessage (fun s => s) ⟨[], []⟩
        "homeassistant/sensor/apc_ups/battery_charge/state/extra" "50" 0
      ≠ ⟨[], []⟩ := by
  decide

/-- C8 (amended): the collector accepts an incoming topic (recovering the
device identifier from level 3 and the field name from level 4) only
when the topic has at least five `'/'`-delimited levels and both
extracted segments are non-empty; a topic with fewer than five levels,
or with an empty device or field segment, is silently ignored with no
change to the collector state. -/
theorem claim_C8_amended (mapper : String → String) (st : CollectorState)
    (topic payload : String) (now : Int) :
    ((cppSplit topic).length < 5 →
      parseTopic topic = ("", "")
      ∧ onMqttMessage mapper st topic payload now = st)
    ∧ ((parseTopic topic).1 = "" ∨ (parseTopic topic).2 = "" →
      onMqttMessage mapper st topic payload now = st) := by
  constructor
  · intro hlen
    have hpt : parseTopic topic = ("", "") := by
      unfold parseTopic
      rw [if_neg (by omega)]
    refine ⟨hpt, ?_⟩
    unfold onMqttMessage
    rw [hpt]
    simp
  · intro hempty
    unfold onMqttMessage
    rcases hpt : parseTopic topic with ⟨a, b⟩
    rw [hpt] at hempty
    exact if_pos hempty

/-- C8 witness: a two-level topic is ignored and the collector state is
unchanged. -/
theorem claim_C8_amended_witness :
    parseTopic "a/b" = ("", "")
    ∧ onMqttMessage (fun s => s) ⟨[], []⟩ "a/b" "p" 0 = ⟨[], []⟩ :=
  (claim_C8_amended (fun s => s) ⟨[], []⟩ "a/b" "p" 0).1 (by decide)

/-- C3: whenever `MqttClient::subscribe` reaches the network subscribe
request, the handler has already been inserted into the
`message_callbacks_` registry at a strictly earlier step of the call's
trace, so a message arriving between the request and its acknowledgment
is already routable. -/
theorem claim_C3_register_before_net (connected mutexFree clientPresent : Bool)
    (topic : String) :
    SubStep.netSubscribe topic
        ∈ (MqttClient.subscribeSteps connected mutexFree clientPresent topic).2 →
    ∃ i j : Nat, i < j
      ∧ (MqttClient.subscribeSteps connected mutexFree clientPresent topic).2[i]?
          = some (SubStep.register topic)
      ∧ (MqttClient.subscribeSteps connected mutexFree clientPresent topic).2[j]?
          = some (SubStep.netSubscribe topic) := by
  intro hmem
  cases connected with
  | false => simp [MqttClient.subscribeSteps] at hmem
  | true =>
    cases mutexFree with
    | false => simp [MqttClient.subscribeSteps] at hmem
    | true =>
      cases clientPresent with
      | false => simp [MqttClient.subscribeSteps] at hmem
      | true =>
        exact ⟨0, 1, Nat.zero_lt_one,
          by simp [MqttClient.subscribeSteps],
          by simp [MqttClient.subscribeSteps]⟩

/-- C3 witness: on a connected client the registration step precedes the
network step of the subscribe trace. -/
theorem claim_C3_register_before_net_witness :
    ∃ i j : Nat, i < j
      ∧ (MqttClient.subscribeSteps true true true "homeassistant/status").2[i]?
          = some (SubStep.register "homeassistant/status")
      ∧ (MqttClient.subscribeSteps true true true "homeassistant/status").2[j]?
          = some (SubStep.netSubscribe "homeassistant/status") :=
  claim_C3_register_before_net true true true "homeassistant/status" (by decide)

/-- In a dispatch trace of the shape
`lock :: (ms.map invokeHandler ++ [unlock])`, the lock depth at any
position `k + 1` with `k` within the handler-invocation segment is 1. -/
theorem locksHeldAt_invoke_segment (ms : List String) (k : Nat)
    (hk : k ≤ ms.length) :
    locksHeldAt (DispatchStep.lockCallbacks ::
      (ms.map DispatchStep.invokeHandler ++ [DispatchStep.unlockCallbacks]))
      (k + 1) = 1 := by
  have hz : k - (ms.map DispatchStep.invokeHandler).length = 0 := by
    simp [Nat.sub_eq_zero_of_le, hk]
  have htake : (ms.map DispatchStep.invokeHandler
      ++ [DispatchStep.unlockCallbacks]).take k
      = (ms.map DispatchStep.invokeHandler).take k := by
    rw [List.take_append_eq_append_take, hz, List.take_zero, List.append_nil]
  have hnolock : ((ms.map DispatchStep.invokeHandler).take k).count
      DispatchStep.lockCallbacks = 0 := by
    refine List.count_eq_zero.mpr ?_
    intro hmem
    rcases List.mem_map.mp (List.take_subset _ _ hmem) with ⟨a, -, ha⟩
    exact absurd ha (by simp)
  have hnounlock : ((ms.map DispatchStep.invokeHandler).take k).count
      DispatchStep.unlockCallbacks = 0 := by
    refine List.count_eq_zero.mpr ?_
    intro hmem
    rcases List.mem_map.mp (List.take_subset _ _ hmem) with ⟨a, -, ha⟩
    exact absurd ha (by simp)
  have hb1 : (DispatchStep.lockCallbacks == DispatchStep.lockCallbacks) = true := by
    decide
  have hb2 : (DispatchStep.lockCallbacks == DispatchStep.unlockCallbacks) = false := by
    decide
  simp [locksHeldAt, List.take_succ_cons, htake, List.count_cons, hnolock,
    hnounlock, hb1, hb2]

/-- C4 counterexample: the claim says the handler-registry lock
(`callbacks_mutex_`) is never held at the moment a handler is entered,
but `MqttClient::onMessageArrived` invokes the matching handler at trace
position 1 while the lock depth there is 1, not 0. -/
theorem claim_C4_counterexample :
    (MqttClient.onMessageArrivedSteps ["a/b"] "a/b")[1]?
      = some (DispatchStep.invokeHandler "a/b")
    ∧ locksHeldAt (MqttClient.onMessageArrivedSteps ["a/b"] "a/b") 1 = 1 := by
  decide

/-- C4 (amended): during dispatch the topic is matched against every
registered pattern and each matching handler is invoked (full fan-out),
but the handler-registry lock `callbacks_mutex_` is held (depth exactly
1) at the moment every handler is entered — dispatch releases it only
after the last handler returns. -/
theorem claim_C4_amended (patterns : List String) (topic p : String) :
    (DispatchStep.invokeHandler p ∈ MqttClient.onMessageArrivedSteps patterns topic
      ↔ p ∈ patterns ∧ topicMatches topic p = true)
    ∧ (∀ i, (MqttClient.onMessageArrivedSteps patterns topic)[i]?
        = some (DispatchStep.invokeHandler p) →
      locksHeldAt (MqttClient.onMessageArrivedSteps patterns topic) i = 1) := by
  constructor
  · simp [MqttClient.onMessageArrivedSteps, List.mem_filter]
  · intro i hi
    unfold MqttClient.onMessageArrivedSteps at hi ⊢
    cases i with
    | zero => simp at hi
    | succ k =>
      obtain ⟨hlen, -⟩ := List.getElem?_eq_some_iff.mp hi
      simp only [List.length_cons, List.length_append, List.length_map,
        List.length_nil] at hlen
      exact locksHeldAt_invoke_segment _ k (by omega)

/-- C4 witness: with the single registered pattern `"a/+"` matching topic
`"a/b"`, the handler invocation at position 1 runs at lock depth 1. -/
theorem claim_C4_amended_witness :
    locksHeldAt (MqttClient.onMessageArrivedSteps ["a/+"] "a/b") 1 = 1 :=
  (claim_C4_amended ["a/+"] "a/b" "a/+").2 1 (by decide)

/-- C7: a pattern whose final level is the multi-level wildcard `"#"`
matches every topic whose levels extend the pattern's prefix (each prefix
level literal or the `"+"` wildcard), regardless of how many trailing
levels the topic has — including zero extra levels — and fails to match
any topic with fewer levels than the pattern has before the wildcard. -/
theorem claim_C7_multilevel_wildcard (pattern topic : String)
    (ps : List String) (hps : cppSplit pattern = ps ++ ["#"]) :
    (ps.length ≤ (cppSplit topic).length →
      matchLevels ps (cppSplit topic) = true →
      topicMatches topic pattern = true)
    ∧ ((cppSplit topic).length < ps.length →
      topicMatches topic pattern = false) := by
  have hcond : cppSplit pattern ≠ [] ∧ (cppSplit pattern).getLast? = some "#" := by
    rw [hps]
    exact ⟨by simp, List.getLast?_concat _⟩
  have hdrop : (cppSplit pattern).dropLast = ps := by
    rw [hps]
    exact List.dropLast_concat
  have hlen : (cppSplit pattern).length - 1 = ps.length := by
    rw [hps]
    simp
  constructor
  · intro h1 h2
    unfold topicMatches
    rw [if_pos hcond, if_neg (by omega), hdrop]
    exact h2
  · intro h1
    unfold topicMatches
    rw [if_pos hcond, if_pos (by omega)]

/-- C7 witness: `"a/#"` matches the bare topic `"a"` (zero extra levels),
and `"a/b/#"` rejects the one-level topic `"x"`. -/
theorem claim_C7_multilevel_wildcard_witness :
    topicMatches "a" "a/#" = true ∧ topicMatches "x" "a/b/#" = false :=
  ⟨(claim_C7_multilevel_wildcard "a/#" "a" ["a"] (by decide)).1
      (by decide) (by decide),
   (claim_C7_multilevel_wildcard "a/b/#" "x" ["a", "b"] (by decide)).2
      (by decide)⟩

/-- C9: while the client is disconnected, `publish` fails fast handing
nothing to the transport, `subscribe` fails fast registering nothing, and
`DiscoveryPublisher::publishAll` (all of whose publishes fail) returns
`false` with no message queued — consistently for any number of repeated
calls. -/
theorem claim_C9_disconnected_fail_fast (topic payload : String) (qos : Nat)
    (retain mutexFree clientPresent : Bool) (device_id : String) (n : Nat) :
    MqttClient.publishModel false topic payload qos retain = (false, none)
    ∧ MqttClient.subscribeSteps false mutexFree clientPresent topic = (false, [])
    ∧ DiscoveryPublisher.publishAll false device_id = (false, [])
    ∧ (∀ r ∈ List.replicate n (DiscoveryPublisher.publishAll false device_id),
        r.1 = false) := by
  have h3 : DiscoveryPublisher.publishAll false device_id = (false, []) := by
    simp [DiscoveryPublisher.publishAll, publishSensorConfig,
      publishBinarySensorConfig, MqttClient.publishModel,
      sensorIdsBeforeBinary, sensorIdsAfterBinary]
  refine ⟨rfl, rfl, h3, ?_⟩
  intro r hr
  rw [List.eq_of_mem_replicate hr, h3]

/-- C9 witness: the manual discovery republish fails while disconnected. -/
theorem claim_C9_disconnected_fail_fast_witness :
    (DiscoveryPublisher.publishAll false "apc_bx").1 = false :=
  (claim_C9_disconnected_fail_fast "t" "p" 1 false true true "apc_bx" 1).2.2.2
    (DiscoveryPublisher.publishAll false "apc_bx") (by simp)

/-- C10 (implicit frame effect): `UpsData::updateFieldFromMqtt` sets the
record timestamp to the current time unconditionally — even for an
unrecognized sensor name or unparsable payload — and for an unrecognized
sensor name no field other than the timestamp is modified. -/
theorem claim_C10_timestamp_frame (d : UpsData) (sensor_name value : String)
    (now : Int) :
    ((d.updateFieldFromMqtt sensor_name value now).timestamp = now)
    ∧ (sensor_name ∉ recognizedSensorNames →
      d.updateFieldFromMqtt sensor_name value now = { d with timestamp := now }) := by
  constructor
  · have aux : ∀ e : UpsData,
        (e.updateFieldDispatch sensor_name value).timestamp = e.timestamp := by
      intro e
      simp only [UpsData.updateFieldDispatch]
      cases hpv : parseDouble value with
      | none => simp [apply_ite (fun r : UpsData => r.timestamp)]
      | some p => simp [apply_ite (fun r : UpsData => r.timestamp)]
    exact aux { d with timestamp := now }
  · intro h
    simp only [recognizedSensorNames, List.mem_cons, List.not_mem_nil,
      not_or] at h
    obtain ⟨h1, h2, h3, h4, h5, h6, h7, h8, h9, h10, h11, h12, h13, h14, h15,
      h16, h17, h18, h19, h20, h21, h22, h23, h24, h25, h26, h27, h28, h29,
      h30, h31, h32, h33, h34, h35⟩ := h
    simp [UpsData.updateFieldFromMqtt, UpsData.updateFieldDispatch,
      h1, h2, h3, h4, h5, h6, h7, h8, h9,
      h10, h11, h12, h13, h14, h15, h16, h17, h18, h19, h20, h21, h22, h23,
      h24, h25, h26, h27, h28, h29, h30, h31, h32, h33, h34, h35]

/-- C10 witness: an unrecognized sensor name only refreshes the
timestamp. -/
theorem claim_C10_timestamp_frame_witness :
    ({} : UpsData).updateFieldFromMqtt "bogus_sensor" "1" 9
      = { ({} : UpsData) with timestamp := 9 } :=
  (claim_C10_timestamp_frame {} "bogus_sensor" "1" 9).2 (by decide)

end HmsNut
